import Mathlib

/-
Verification of the event-driven POC (poc_event_app).

The development shallowly embeds the two source variants:
  src/poc_event_app/inject_with_kink.py                (full model)
  src/poc_event_app/inject_with_dependency_injector.py (service-provider model)

Python effects (object construction, kink's dependency container, console
output, AMQP publication) are modelled by explicit state passing over a
`World` record that logs every observable action; Python exceptions are
modelled with `Except` / `Option PyError` results.
-/

/-- Python exception kinds relevant to the sources. `unknownTypeError` is the
error name used by the specification's taxonomy; the source never defines or
raises it — it is included only so statements mentioning it can be expressed. -/
inductive PyError
  | keyError
  | typeError
  | assertionError
  | notImplementedError
  | unknownTypeError
deriving DecidableEq, Repr

/-- JSON values, the value space of Python's json module as used by
`NewMessageEvent.serialize` and `NewMessageEvent.deserialize`. -/
inductive Json
  | null
  | bool (b : Bool)
  | num (n : Int)
  | str (s : String)
  | arr (xs : List Json)
  | obj (fields : List (String × Json))

/-- Wire body of a message. The source produces bytes with
`json.dumps(...).encode()` and reads them back with `json.loads(b.decode())`;
those library functions are mutually inverse on JSON values, so the wire body
is modelled by the JSON value it encodes. -/
abbrev Bytes := Json

/-- Lookup of a key in a JSON object's field list (Python dict lookup). -/
def objLookup : List (String × Json) → String → Option Json
  | [], _ => none
  | (k, v) :: rest, key => if k = key then some v else objLookup rest key

/-- Python subscription `d[key]` on a decoded JSON value: `KeyError` when the
key is absent, `TypeError` when the value is not a dict. -/
def jsonGetItem : Json → String → Except PyError Json
  | Json.obj fields, key =>
      match objLookup fields key with
      | some v => Except.ok v
      | none => Except.error PyError.keyError
  | _, _ => Except.error PyError.typeError

/-- Python `datetime` restricted to the fields the source constructs
(`datetime(2022, 10, 26, 2, 49)`, microsecond zero). -/
structure PyDatetime where
  year : Nat
  month : Nat
  day : Nat
  hour : Nat
  minute : Nat
  second : Nat
deriving DecidableEq, Repr

/-- Left-pads the decimal rendering of `n` with zeros to the given width,
as Python's datetime field formatting does. -/
def padNum (width : Nat) (n : Nat) : String :=
  let s := toString n
  if s.length < width then String.mk (List.replicate (width - s.length) '0') ++ s else s

/-- Python `datetime.isoformat()` for a datetime with microsecond zero:
YYYY-MM-DDTHH:MM:SS. -/
def PyDatetime.isoformat (d : PyDatetime) : String :=
  padNum 4 d.year ++ "-" ++ padNum 2 d.month ++ "-" ++ padNum 2 d.day ++ "T"
    ++ padNum 2 d.hour ++ ":" ++ padNum 2 d.minute ++ ":" ++ padNum 2 d.second

/-- The concrete `Event` subclasses of inject_with_kink.py: `NewMessageEvent`
is the only one. `type(event)` in the dispatcher resolves to one of these. -/
inductive EventClass
  | newMessageEvent
deriving DecidableEq, Repr

/-- State of a `NewMessageEvent` instance. Python does not constrain the type
of the `message` attribute, so it is modelled as an arbitrary JSON value; a
valid instance carries a `Json.str`. -/
structure NewMessageEvent where
  message : Json

/-- A runtime event value: an instance of one of the concrete event classes. -/
inductive EventVal
  | newMessage (ev : NewMessageEvent)

/-- Python `type(event)` for a runtime event value. -/
def EventVal.pyType : EventVal → EventClass
  | .newMessage _ => EventClass.newMessageEvent

/-- Source `NewMessageEvent.serialize`:
json.dumps with a single-field dict holding the message. -/
def NewMessageEvent.serialize (ev : NewMessageEvent) : Bytes :=
  Json.obj [("message", ev.message)]

/-- Source `NewMessageEvent.deserialize`: json.loads the body, subscript the
result at "message", and construct a `NewMessageEvent` from it. -/
def NewMessageEvent.deserialize (b : Bytes) : Except PyError EventVal :=
  match jsonGetItem b "message" with
  | Except.ok m => Except.ok (EventVal.newMessage ⟨m⟩)
  | Except.error err => Except.error err

/-- Source `get_type` static methods, per event class. -/
def EventClass.getType : EventClass → String
  | .newMessageEvent => "some-proj/some-domain/some-event"

/-- Source `get_revision` static methods, per event class:
`datetime(2022, 10, 26, 2, 49)`. -/
def EventClass.getRevision : EventClass → PyDatetime
  | .newMessageEvent => ⟨2022, 10, 26, 2, 49, 0⟩

/-- Static-method dispatch of `deserialize` through an event class object,
as done by `EventListener.deserialize_event`. -/
def EventClass.deserializeBytes : EventClass → Bytes → Except PyError EventVal
  | .newMessageEvent, b => NewMessageEvent.deserialize b

/-- Instance-method dispatch of `serialize` on a runtime event value. -/
def EventVal.serialize : EventVal → Bytes
  | .newMessage ev => NewMessageEvent.serialize ev

/-- Method dispatch of `get_type` on a runtime event value. -/
def EventVal.getType (e : EventVal) : String :=
  e.pyType.getType

/-- Method dispatch of `get_revision` on a runtime event value. -/
def EventVal.getRevision (e : EventVal) : PyDatetime :=
  e.pyType.getRevision

/-- The concrete `EventHandler` subclasses: `SendNotificationOnNewMessage`
is the only one. -/
inductive HandlerClass
  | sendNotificationOnNewMessage
deriving DecidableEq, Repr

/-- Source `EventHandlerMap = Dict[Type[Event], List[Type[EventHandler[Any]]]]`,
as an association list keyed by event class. -/
abbrev EventHandlerMap := List (EventClass × List HandlerClass)

/-- Source `EventTypeMap = Dict[str, Type[Event]]`. -/
abbrev EventTypeMap := List (String × EventClass)

/-- Dict lookup in an `EventHandlerMap` (`type(event) in self.event_map` /
`self.event_map[type(event)]`). -/
def eventMapLookup : EventHandlerMap → EventClass → Option (List HandlerClass)
  | [], _ => none
  | (c, hs) :: rest, key => if c = key then some hs else eventMapLookup rest key

/-- Dict lookup in an `EventTypeMap` (`self.event_type_map.get(type)`). -/
def typeMapLookup : EventTypeMap → String → Option EventClass
  | [], _ => none
  | (t, c) :: rest, key => if t = key then some c else typeMapLookup rest key

/-- One invocation of `handle_event`, recorded with the handler's class, the
handler instance's object identity, and the event passed. -/
structure Invocation where
  handlerClass : HandlerClass
  handlerOid : Nat
  event : EventVal

/-- Observable process state of the kink variant: an object-identity counter,
kink's cached `NotificationService` binding, and logs of service
constructions, handler constructions, `handle_event` invocations and console
output. -/
structure World where
  nextOid : Nat
  svcCache : Option Nat
  svcLog : List Nat
  handlerLog : List (Nat × HandlerClass)
  callLog : List Invocation
  out : List String

/-- Process state at the end of `bootstrap`'s container setup: nothing
constructed yet (the kink binding is a lambda, evaluated lazily). -/
def initialWorld : World :=
  { nextOid := 0, svcCache := none, svcLog := [], handlerLog := [], callLog := [], out := [] }

/-- Source `PrintNotificationService.__init__`: prints a line; the fresh
instance is identified by a new object id. -/
def constructPrintNotificationService (w : World) : Nat × World :=
  (w.nextOid,
    { w with
        nextOid := w.nextOid + 1,
        svcLog := w.svcLog ++ [w.nextOid],
        out := w.out ++ ["Hey, i was just constructed"] })

/-- Resolution of `NotificationService` from kink's container. The source
binds `di[NotificationService] = lambda di: PrintNotificationService()`;
kink evaluates such a service binding lazily on first access and caches the
result, returning the cached instance on later accesses. -/
def resolveNotificationService (w : World) : Nat × World :=
  match w.svcCache with
  | some oid => (oid, w)
  | none =>
      let p := constructPrintNotificationService w
      (p.1, { p.2 with svcCache := some p.1 })

/-- Source `event_handler_class()` inside the dispatch loop: kink's
`inject` decorator on `SendNotificationOnNewMessage` fills the
`notification_service` argument from the container, then a fresh handler
object is constructed. -/
def constructHandler (c : HandlerClass) (w : World) : Nat × World :=
  match c with
  | HandlerClass.sendNotificationOnNewMessage =>
      let q := resolveNotificationService w
      (q.2.nextOid,
        { q.2 with
            nextOid := q.2.nextOid + 1,
            handlerLog := q.2.handlerLog ++ [(q.2.nextOid, c)] })

/-- Source `handle_event` of `SendNotificationOnNewMessage`: calls
`notification_service.send_notificaition()`, which prints. The invocation
itself is recorded in the call log. -/
def handle_event (c : HandlerClass) (oid : Nat) (e : EventVal) (w : World) : World :=
  match c with
  | HandlerClass.sendNotificationOnNewMessage =>
      { w with
          callLog := w.callLog ++ [Invocation.mk c oid e],
          out := w.out ++ ["Notification Sent!"] }

/-- One iteration of the dispatch loop body:
`event_handler_instance = event_handler_class()` followed by
`event_handler_instance.handle_event(event)`. -/
def kinkStep (e : EventVal) (c : HandlerClass) (w : World) : World :=
  let p := constructHandler c w
  handle_event c p.1 e p.2

/-- The `for event_handler_class in self.event_map[type(event)]` loop of
`RuntimeEventDispatcher.dispatch`. -/
def dispatchGo (e : EventVal) : List HandlerClass → World → World
  | [], w => w
  | c :: rest, w => dispatchGo e rest (kinkStep e c w)

/-- Source `RuntimeEventDispatcher.dispatch`: if the event's concrete type is
a key of the event map, run every registered handler class in list order;
otherwise do nothing. -/
def RuntimeEventDispatcher.dispatch (m : EventHandlerMap) (e : EventVal) (w : World) : World :=
  match eventMapLookup m e.pyType with
  | none => w
  | some hs => dispatchGo e hs w

/-- The loop of `EventListener.handle` (its body is line-identical to the
loop of `RuntimeEventDispatcher.dispatch`). -/
def listenerGo (e : EventVal) : List HandlerClass → World → World
  | [], w => w
  | c :: rest, w => listenerGo e rest (kinkStep e c w)

/-- Source `EventListener.handle`. -/
def EventListener.handle (m : EventHandlerMap) (e : EventVal) (w : World) : World :=
  match eventMapLookup m e.pyType with
  | none => w
  | some hs => listenerGo e hs w

/-- Source `EventListener.deserialize_event`: `event_type_map.get(type)`,
then `assert event_type is not None` (a miss raises `AssertionError`), then
the class's `deserialize`. The event type map is returned to express that the
call leaves it unchanged. -/
def EventListener.deserialize_event (etm : EventTypeMap) (t : String) (b : Bytes) :
    Except PyError EventVal × EventTypeMap :=
  match typeMapLookup etm t with
  | none => (Except.error PyError.assertionError, etm)
  | some ec => (ec.deserializeBytes b, etm)

/-- A message published via pika's `basic_publish`, with the fields the
source sets: exchange, routing key, header map and body. -/
structure AmqpMessage where
  exchange : String
  routingKey : String
  headers : List (String × String)
  body : Bytes

/-- State of the broker connection: the list of published messages. -/
structure BrokerState where
  published : List AmqpMessage

/-- Source `RabbitMQEvenDispatcher.dispatch`: serialize the event, then
`basic_publish` one message on exchange "" with routing key "test", headers
holding the event's type identifier and the isoformat of its revision, and
the serialized event as body. -/
def RabbitMQEvenDispatcher.dispatch (e : EventVal) (st : BrokerState) : BrokerState :=
  let serialized := e.serialize
  { published := st.published ++
      [{ exchange := "", routingKey := "test",
         headers := [("type", e.getType), ("revision", e.getRevision.isoformat)],
         body := serialized }] }

/-- Source `EVENT_HANDLERS` of inject_with_kink.py. -/
def EVENT_HANDLERS : EventHandlerMap :=
  [(EventClass.newMessageEvent, [HandlerClass.sendNotificationOnNewMessage])]

/-- Source `EVENT_TYPES_MAP`: the dict comprehension mapping each key class
of `EVENT_HANDLERS` from its `get_type()` string back to the class. -/
def EVENT_TYPES_MAP : EventTypeMap :=
  (EVENT_HANDLERS.map Prod.fst).map (fun k => (k.getType, k))

/-- The event `bootstrap` constructs on each loop turn:
`NewMessageEvent(message="Hello World!")`. -/
def helloWorldEvent : EventVal :=
  EventVal.newMessage ⟨Json.str "Hello World!"⟩

/-- State of the dependency_injector variant's service providers: an
object-identity counter and the log of `PrintNotificationService`
constructions. -/
structure DIWorld where
  nextOid : Nat
  svcLog : List Nat
deriving DecidableEq, Repr

/-- The binding `notification_service = Factory(PrintNotificationService)` of
inject_with_dependency_injector.py: a dependency_injector `Factory` provider
constructs a new instance on every call. -/
def factoryProvideNotificationService (w : DIWorld) : Nat × DIWorld :=
  (w.nextOid, { nextOid := w.nextOid + 1, svcLog := w.svcLog ++ [w.nextOid] })

/-- The dispatch loop with its body abstracted: `body c s` performs one
iteration (handler construction plus `handle_event`) for handler class `c`,
returning the updated state and optionally a raised exception. The source
loop has no try/except, so a raised exception ends the loop at once with the
state the failing iteration left behind. -/
def dispatchLoopExc {σ : Type} (body : HandlerClass → σ → σ × Option PyError) :
    List HandlerClass → σ → σ × Option PyError
  | [], s => (s, none)
  | c :: rest, s =>
      match body c s with
      | (s1, none) => dispatchLoopExc body rest s1
      | (s1, some err) => (s1, some err)

/-- `RuntimeEventDispatcher.dispatch` with the loop body abstracted, making
exception flow through the dispatcher observable: an unregistered event type
is a no-op, and an exception from an iteration propagates to the caller. -/
def dispatchExc {σ : Type} (body : HandlerClass → σ → σ × Option PyError)
    (m : EventHandlerMap) (e : EventVal) (s : σ) : σ × Option PyError :=
  match eventMapLookup m e.pyType with
  | none => (s, none)
  | some hs => dispatchLoopExc body hs s

/-- Handler construction does not touch the invocation log. -/
theorem constructHandler_callLog (c : HandlerClass) (w : World) :
    ((constructHandler c w).2).callLog = w.callLog := by
  cases c
  unfold constructHandler resolveNotificationService constructPrintNotificationService
  cases h : w.svcCache <;> simp

/-- Handler construction appends exactly one entry, the fresh instance with
its class, to the handler construction log. -/
theorem constructHandler_handlerLog (c : HandlerClass) (w : World) :
    ((constructHandler c w).2).handlerLog
      = w.handlerLog ++ [((constructHandler c w).1, c)] := by
  cases c
  unfold constructHandler resolveNotificationService constructPrintNotificationService
  cases h : w.svcCache <;> simp

/-- The freshly constructed handler's object id is no older than the current
object-identity counter. -/
theorem constructHandler_oid_ge (c : HandlerClass) (w : World) :
    w.nextOid ≤ (constructHandler c w).1 := by
  cases c
  unfold constructHandler resolveNotificationService constructPrintNotificationService
  cases h : w.svcCache <;> simp

/-- After a handler construction, the object-identity counter has moved past
the fresh handler's object id. -/
theorem constructHandler_oid_lt (c : HandlerClass) (w : World) :
    (constructHandler c w).1 < ((constructHandler c w).2).nextOid := by
  cases c
  unfold constructHandler resolveNotificationService constructPrintNotificationService
  cases h : w.svcCache <;> simp

/-- Calling `handle_event` appends exactly the one invocation record. -/
theorem handle_event_callLog (c : HandlerClass) (oid : Nat) (e : EventVal) (w : World) :
    (handle_event c oid e w).callLog = w.callLog ++ [Invocation.mk c oid e] := by
  cases c
  unfold handle_event
  simp

/-- Calling `handle_event` constructs nothing. -/
theorem handle_event_handlerLog (c : HandlerClass) (oid : Nat) (e : EventVal) (w : World) :
    (handle_event c oid e w).handlerLog = w.handlerLog := by
  cases c
  unfold handle_event
  simp

/-- Calling `handle_event` allocates no object id. -/
theorem handle_event_nextOid (c : HandlerClass) (oid : Nat) (e : EventVal) (w : World) :
    (handle_event c oid e w).nextOid = w.nextOid := by
  cases c
  unfold handle_event
  simp

/-- One loop iteration appends exactly one invocation, of the freshly
constructed handler instance on the dispatched event. -/
theorem kinkStep_callLog (e : EventVal) (c : HandlerClass) (w : World) :
    (kinkStep e c w).callLog
      = w.callLog ++ [Invocation.mk c (constructHandler c w).1 e] := by
  unfold kinkStep
  rw [handle_event_callLog, constructHandler_callLog]

/-- One loop iteration appends exactly one handler construction. -/
theorem kinkStep_handlerLog (e : EventVal) (c : HandlerClass) (w : World) :
    (kinkStep e c w).handlerLog = w.handlerLog ++ [((constructHandler c w).1, c)] := by
  unfold kinkStep
  rw [handle_event_handlerLog, constructHandler_handlerLog]

/-- After one loop iteration the object-identity counter has moved past the
object id of the handler instance the iteration constructed. -/
theorem kinkStep_oid_lt (e : EventVal) (c : HandlerClass) (w : World) :
    (constructHandler c w).1 < (kinkStep e c w).nextOid := by
  unfold kinkStep
  rw [handle_event_nextOid]
  exact constructHandler_oid_lt c w

/-- The object-identity counter never decreases across a loop iteration. -/
theorem kinkStep_nextOid_ge (e : EventVal) (c : HandlerClass) (w : World) :
    w.nextOid ≤ (kinkStep e c w).nextOid := by
  unfold kinkStep
  rw [handle_event_nextOid]
  exact le_trans (constructHandler_oid_ge c w) (le_of_lt (constructHandler_oid_lt c w))

/-- Full trace of the dispatch loop over a handler-class list: it appends one
invocation per registered class, in list order, each on a freshly constructed
handler instance; the instances' object ids are strictly increasing, all
allocated during the loop. -/
theorem dispatchGo_trace (e : EventVal) (hs : List HandlerClass) (w : World) :
    ∃ oids : List Nat,
      oids.length = hs.length ∧
      (dispatchGo e hs w).callLog
        = w.callLog ++ List.zipWith (fun c oid => Invocation.mk c oid e) hs oids ∧
      (dispatchGo e hs w).handlerLog
        = w.handlerLog ++ List.zipWith (fun c oid => (oid, c)) hs oids ∧
      List.Pairwise (· < ·) oids ∧
      (∀ o ∈ oids, w.nextOid ≤ o) ∧
      (∀ o ∈ oids, o < (dispatchGo e hs w).nextOid) ∧
      w.nextOid ≤ (dispatchGo e hs w).nextOid := by
  induction hs generalizing w with
  | nil =>
      refine ⟨[], ?_⟩
      simp [dispatchGo]
  | cons c rest ih =>
      obtain ⟨oids, hlen, hcall, hhand, hpair, hlb, hub, hmono⟩ := ih (kinkStep e c w)
      have hstep : dispatchGo e (c :: rest) w = dispatchGo e rest (kinkStep e c w) := rfl
      refine ⟨(constructHandler c w).1 :: oids, ?_, ?_, ?_, ?_, ?_, ?_, ?_⟩
      · simp [hlen]
      · rw [hstep, hcall, kinkStep_callLog]
        simp
      · rw [hstep, hhand, kinkStep_handlerLog]
        simp
      · refine List.pairwise_cons.mpr ⟨?_, hpair⟩
        intro o ho
        exact lt_of_lt_of_le (kinkStep_oid_lt e c w) (hlb o ho)
      · intro o ho
        rcases List.mem_cons.mp ho with h | h
        · rw [h]; exact constructHandler_oid_ge c w
        · exact le_trans (kinkStep_nextOid_ge e c w) (hlb o h)
      · intro o ho
        rcases List.mem_cons.mp ho with h | h
        · rw [h, hstep]
          exact lt_of_lt_of_le (kinkStep_oid_lt e c w) hmono
        · rw [hstep]; exact hub o h
      · rw [hstep]
        exact le_trans (kinkStep_nextOid_ge e c w) hmono

/-- The listener's loop and the dispatcher's loop are the same computation
(their source bodies are line-identical). -/
theorem listenerGo_eq_dispatchGo (e : EventVal) (hs : List HandlerClass) (w : World) :
    listenerGo e hs w = dispatchGo e hs w := by
  induction hs generalizing w with
  | nil => rfl
  | cons c rest ih =>
      show listenerGo e rest (kinkStep e c w) = dispatchGo e rest (kinkStep e c w)
      exact ih (kinkStep e c w)

/-- Mapping the class component out of a zipped (oid, class) list recovers
the class list when the lists have equal length. -/
theorem zipWith_pair_map_snd (hs : List HandlerClass) (oids : List Nat)
    (h : oids.length = hs.length) :
    (List.zipWith (fun c oid => (oid, c)) hs oids).map Prod.snd = hs := by
  induction hs generalizing oids with
  | nil => simp
  | cons c rest ih =>
      cases oids with
      | nil => simp at h
      | cons o os =>
          simp only [List.zipWith, List.map]
          rw [ih os (by simpa using h)]

/-- Mapping the oid component out of a zipped (oid, class) list recovers the
oid list when the lists have equal length. -/
theorem zipWith_pair_map_fst (hs : List HandlerClass) (oids : List Nat)
    (h : oids.length = hs.length) :
    (List.zipWith (fun c oid => (oid, c)) hs oids).map Prod.fst = oids := by
  induction hs generalizing oids with
  | nil => cases oids with
      | nil => simp
      | cons o os => simp at h
  | cons c rest ih =>
      cases oids with
      | nil => simp at h
      | cons o os =>
          simp only [List.zipWith, List.map]
          rw [ih os (by simpa using h)]

/-- Running the abstract dispatch loop over an appended list runs the first
part and, unless it raised, continues with the second from the state reached. -/
theorem dispatchLoopExc_append {σ : Type} (body : HandlerClass → σ → σ × Option PyError)
    (l1 l2 : List HandlerClass) (s : σ) :
    dispatchLoopExc body (l1 ++ l2) s =
      match dispatchLoopExc body l1 s with
      | (s1, none) => dispatchLoopExc body l2 s1
      | (s1, some err) => (s1, some err) := by
  induction l1 generalizing s with
  | nil => simp [dispatchLoopExc]
  | cons c rest ih =>
      rcases hb : body c s with ⟨s1, e?⟩
      have h1 : dispatchLoopExc body ((c :: rest) ++ l2) s
          = match (s1, e?) with
            | (s2, none) => dispatchLoopExc body (rest ++ l2) s2
            | (s2, some err) => (s2, some err) := by
        rw [List.cons_append]
        show (match body c s with
              | (s2, none) => dispatchLoopExc body (rest ++ l2) s2
              | (s2, some err) => (s2, some err)) = _
        rw [hb]
      have h2 : dispatchLoopExc body (c :: rest) s
          = match (s1, e?) with
            | (s2, none) => dispatchLoopExc body rest s2
            | (s2, some err) => (s2, some err) := by
        show (match body c s with
              | (s2, none) => dispatchLoopExc body rest s2
              | (s2, some err) => (s2, some err)) = _
        rw [hb]
      rw [h1, h2]
      cases e? with
      | none => exact ih s1
      | some err => rfl

/-- Dropping i elements of a list with i in range exposes the i-th element. -/
theorem drop_eq_get_cons {α : Type} (l : List α) (i : Nat) (h : i < l.length) :
    l.drop i = l.get ⟨i, h⟩ :: l.drop (i + 1) := by
  induction l generalizing i with
  | nil => simp at h
  | cons a t ih =>
      cases i with
      | zero => simp
      | succ j =>
          simp only [List.drop, List.get]
          exact ih j (by simpa using h)

/-- The abstracted dispatch agrees with the concrete kink dispatcher when the
loop body is instantiated with the concrete iteration, which never raises. -/
theorem dispatchExc_eq_dispatch (m : EventHandlerMap) (e : EventVal) (w : World) :
    dispatchExc (fun c w1 => (kinkStep e c w1, none)) m e w
      = (RuntimeEventDispatcher.dispatch m e w, none) := by
  unfold dispatchExc RuntimeEventDispatcher.dispatch
  cases h : eventMapLookup m e.pyType with
  | none => rfl
  | some hs =>
      clear h
      induction hs generalizing w with
      | nil => rfl
      | cons c rest ih =>
          show dispatchLoopExc _ rest (kinkStep e c w) = (dispatchGo e rest (kinkStep e c w), none)
          exact ih (kinkStep e c w)

/-- The listener's handle method equals the dispatcher's dispatch method
(shared auxiliary form). -/
theorem handle_eq_dispatch_aux (m : EventHandlerMap) (e : EventVal) (w : World) :
    EventListener.handle m e w = RuntimeEventDispatcher.dispatch m e w := by
  unfold EventListener.handle RuntimeEventDispatcher.dispatch
  cases h : eventMapLookup m e.pyType with
  | none => rfl
  | some hs => exact listenerGo_eq_dispatchGo e hs w

/-- Handler constructions appended by one dispatch call: one fresh instance
per registered class in registration order, with strictly increasing object
ids all allocated during the call. -/
theorem dispatch_handlerLog_spec (m : EventHandlerMap) (e : EventVal) (w : World) :
    ∃ new : List (Nat × HandlerClass),
      (RuntimeEventDispatcher.dispatch m e w).handlerLog = w.handlerLog ++ new ∧
      new.map Prod.snd = (eventMapLookup m e.pyType).getD [] ∧
      List.Pairwise (· < ·) (new.map Prod.fst) ∧
      (∀ o ∈ new.map Prod.fst, w.nextOid ≤ o) ∧
      (∀ o ∈ new.map Prod.fst, o < (RuntimeEventDispatcher.dispatch m e w).nextOid) ∧
      w.nextOid ≤ (RuntimeEventDispatcher.dispatch m e w).nextOid := by
  rcases h : eventMapLookup m e.pyType with _ | hs
  · refine ⟨[], ?_⟩
    simp only [RuntimeEventDispatcher.dispatch, h]
    simp
  · obtain ⟨oids, hlen, _, hhand, hpair, hlb, hub, hmono⟩ := dispatchGo_trace e hs w
    refine ⟨List.zipWith (fun c oid => (oid, c)) hs oids, ?_, ?_, ?_, ?_, ?_, ?_⟩
    · simp only [RuntimeEventDispatcher.dispatch, h]
      exact hhand
    · rw [zipWith_pair_map_snd hs oids hlen]
      rfl
    · rw [zipWith_pair_map_fst hs oids hlen]
      exact hpair
    · rw [zipWith_pair_map_fst hs oids hlen]
      exact hlb
    · rw [zipWith_pair_map_fst hs oids hlen]
      simp only [RuntimeEventDispatcher.dispatch, h]
      exact hub
    · simp only [RuntimeEventDispatcher.dispatch, h]
      exact hmono

/-- Claim C1: for an event whose concrete type is registered in the
dispatcher's event map with k handler classes, dispatch invokes handle_event
with that event on exactly k handler instances — one per registered class, in
the order of the registered list, each instance exactly once. -/
theorem dispatch_invokes_registered_handlers_in_order
    (m : EventHandlerMap) (e : EventVal) (w : World) (hs : List HandlerClass)
    (h : eventMapLookup m e.pyType = some hs) :
    ∃ oids : List Nat,
      oids.length = hs.length ∧
      (RuntimeEventDispatcher.dispatch m e w).callLog
        = w.callLog ++ List.zipWith (fun c oid => Invocation.mk c oid e) hs oids ∧
      List.Pairwise (· ≠ ·) oids := by
  obtain ⟨oids, hlen, hcall, _, hpair, _, _, _⟩ := dispatchGo_trace e hs w
  refine ⟨oids, hlen, ?_, ?_⟩
  · simp only [RuntimeEventDispatcher.dispatch, h]
    exact hcall
  · exact List.Pairwise.imp (fun hab => Nat.ne_of_lt hab) hpair

/-- Witness for claim C1: dispatching the bootstrap event against the
source's EVENT_HANDLERS map invokes its single registered handler once. -/
theorem dispatch_invokes_registered_handlers_in_order_witness :
    ∃ oids : List Nat,
      oids.length = [HandlerClass.sendNotificationOnNewMessage].length ∧
      (RuntimeEventDispatcher.dispatch EVENT_HANDLERS helloWorldEvent initialWorld).callLog
        = initialWorld.callLog
            ++ List.zipWith (fun c oid => Invocation.mk c oid helloWorldEvent)
                 [HandlerClass.sendNotificationOnNewMessage] oids ∧
      List.Pairwise (· ≠ ·) oids :=
  dispatch_invokes_registered_handlers_in_order EVENT_HANDLERS helloWorldEvent initialWorld
    [HandlerClass.sendNotificationOnNewMessage] rfl

/-- Claim C6: an inbound message whose type identifier is registered is
deserialized and then handled by the listener with exactly the same dispatch
effect as the in-process dispatcher produces on the same event: the
listener's handle and the dispatcher's dispatch are behaviourally equal on
every event map, event and state. -/
theorem listener_handle_refines_dispatch (m : EventHandlerMap) (e : EventVal) (w : World) :
    EventListener.handle m e w = RuntimeEventDispatcher.dispatch m e w :=
  handle_eq_dispatch_aux m e w

/-- Witness for claim C6: listener and dispatcher agree on the bootstrap
event under the source's registry. -/
theorem listener_handle_refines_dispatch_witness :
    EventListener.handle EVENT_HANDLERS helloWorldEvent initialWorld
      = RuntimeEventDispatcher.dispatch EVENT_HANDLERS helloWorldEvent initialWorld :=
  listener_handle_refines_dispatch EVENT_HANDLERS helloWorldEvent initialWorld

/-- Claim C8: dispatching an event whose concrete type has no entry in the
event map returns the state completely unchanged — no handler invoked, no
handler or service constructed, no output, registries and cache untouched —
and raises nothing, whatever the handler iterations would have done. -/
theorem dispatch_unregistered_class_noop (m : EventHandlerMap) (e : EventVal) (w : World)
    (h : eventMapLookup m e.pyType = none) :
    RuntimeEventDispatcher.dispatch m e w = w ∧
    ∀ (σ : Type) (body : HandlerClass → σ → σ × Option PyError) (s : σ),
      dispatchExc body m e s = (s, none) := by
  constructor
  · simp only [RuntimeEventDispatcher.dispatch, h]
  · intro σ body s
    simp only [dispatchExc, h]

/-- Witness for claim C8: an empty event map makes dispatch of the bootstrap
event the identity on the state and a normal return. -/
theorem dispatch_unregistered_class_noop_witness :
    RuntimeEventDispatcher.dispatch [] helloWorldEvent initialWorld = initialWorld ∧
    dispatchExc (fun _ n => (n + 1, some PyError.typeError)) [] helloWorldEvent 0 = (0, none) :=
  ⟨(dispatch_unregistered_class_noop [] helloWorldEvent initialWorld rfl).1,
   (dispatch_unregistered_class_noop [] helloWorldEvent initialWorld rfl).2 Nat
     (fun _ n => (n + 1, some PyError.typeError)) 0⟩

/-- Claim C10: handler instances are never reused: a dispatch call constructs
one fresh handler instance per registered class (pairwise distinct object
ids), the listener's handle behaves identically, and two consecutive calls —
here a dispatch followed by a listener handle — share no handler instance. -/
theorem dispatch_constructs_fresh_handler_instances
    (m m2 : EventHandlerMap) (e e2 : EventVal) (w : World) :
    ∃ new1 new2 : List (Nat × HandlerClass),
      (RuntimeEventDispatcher.dispatch m e w).handlerLog = w.handlerLog ++ new1 ∧
      (EventListener.handle m2 e2 (RuntimeEventDispatcher.dispatch m e w)).handlerLog
        = (RuntimeEventDispatcher.dispatch m e w).handlerLog ++ new2 ∧
      new1.map Prod.snd = (eventMapLookup m e.pyType).getD [] ∧
      new2.map Prod.snd = (eventMapLookup m2 e2.pyType).getD [] ∧
      List.Pairwise (· ≠ ·) (new1.map Prod.fst) ∧
      List.Pairwise (· ≠ ·) (new2.map Prod.fst) ∧
      ∀ o ∈ new1.map Prod.fst, o ∉ new2.map Prod.fst := by
  obtain ⟨new1, hext1, hsnd1, hpair1, _, hub1, _⟩ := dispatch_handlerLog_spec m e w
  obtain ⟨new2, hext2, hsnd2, hpair2, hlb2, _, _⟩ :=
    dispatch_handlerLog_spec m2 e2 (RuntimeEventDispatcher.dispatch m e w)
  refine ⟨new1, new2, hext1, ?_, hsnd1, hsnd2,
    List.Pairwise.imp (fun hab => Nat.ne_of_lt hab) hpair1,
    List.Pairwise.imp (fun hab => Nat.ne_of_lt hab) hpair2, ?_⟩
  · rw [handle_eq_dispatch_aux]
    exact hext2
  · intro o ho hmem
    exact absurd (hub1 o ho) (not_lt_of_le (hlb2 o hmem))

/-- Witness for claim C10: two consecutive handling calls on the bootstrap
event with the source registry construct disjoint fresh handler instances. -/
theorem dispatch_constructs_fresh_handler_instances_witness :
    ∃ new1 new2 : List (Nat × HandlerClass),
      (RuntimeEventDispatcher.dispatch EVENT_HANDLERS helloWorldEvent initialWorld).handlerLog
        = initialWorld.handlerLog ++ new1 ∧
      (EventListener.handle EVENT_HANDLERS helloWorldEvent
          (RuntimeEventDispatcher.dispatch EVENT_HANDLERS helloWorldEvent initialWorld)).handlerLog
        = (RuntimeEventDispatcher.dispatch EVENT_HANDLERS helloWorldEvent initialWorld).handlerLog
            ++ new2 ∧
      new1.map Prod.snd = (eventMapLookup EVENT_HANDLERS helloWorldEvent.pyType).getD [] ∧
      new2.map Prod.snd = (eventMapLookup EVENT_HANDLERS helloWorldEvent.pyType).getD [] ∧
      List.Pairwise (· ≠ ·) (new1.map Prod.fst) ∧
      List.Pairwise (· ≠ ·) (new2.map Prod.fst) ∧
      ∀ o ∈ new1.map Prod.fst, o ∉ new2.map Prod.fst :=
  dispatch_constructs_fresh_handler_instances EVENT_HANDLERS EVENT_HANDLERS
    helloWorldEvent helloWorldEvent initialWorld

/-- Claim C7: if the i-th handler iteration of a dispatch raises (during
handler construction or handle_event), dispatch propagates that exception to
its caller together with the state the failing iteration left, so handlers
after position i are neither constructed nor invoked, and the exception is
not caught inside dispatch. -/
theorem dispatch_propagates_handler_exception {σ : Type}
    (body : HandlerClass → σ → σ × Option PyError)
    (m : EventHandlerMap) (e : EventVal) (s sMid sFail : σ)
    (hs : List HandlerClass) (i : Nat) (hi : i < hs.length) (err : PyError)
    (hmap : eventMapLookup m e.pyType = some hs)
    (hpre : dispatchLoopExc body (hs.take i) s = (sMid, none))
    (hfail : body (hs.get ⟨i, hi⟩) sMid = (sFail, some err)) :
    dispatchExc body m e s = (sFail, some err) := by
  simp only [dispatchExc, hmap]
  have happ := dispatchLoopExc_append body (hs.take i) (hs.drop i) s
  rw [List.take_append_drop] at happ
  rw [happ, hpre]
  show dispatchLoopExc body (hs.drop i) sMid = _
  rw [drop_eq_get_cons hs i hi]
  show (match body (hs.get ⟨i, hi⟩) sMid with
        | (s2, none) => dispatchLoopExc body (hs.drop (i + 1)) s2
        | (s2, some err2) => (s2, some err2)) = _
  rw [hfail]

/-- Witness for claim C7: a loop body that raises TypeError on the first
registered handler makes dispatch surface exactly that exception with the
failing iteration's state. -/
theorem dispatch_propagates_handler_exception_witness :
    dispatchExc (fun _ n => (n + 1, some PyError.typeError)) EVENT_HANDLERS helloWorldEvent 0
      = (1, some PyError.typeError) :=
  dispatch_propagates_handler_exception (fun _ n => (n + 1, some PyError.typeError))
    EVENT_HANDLERS helloWorldEvent 0 0 1
    [HandlerClass.sendNotificationOnNewMessage] 0 (by decide) PyError.typeError
    rfl rfl rfl

/-- Claim C2 (amended): a type identifier absent from the listener's event
type map makes deserialize_event raise — but with AssertionError from the
failed assert, not with a dedicated UnknownTypeError, which the source never
defines — and it leaves the event type map unchanged; dispatch of an event
whose concrete type is unregistered does not raise at all: it returns the
state unchanged. -/
theorem unknown_type_identifier_behavior (etm : EventTypeMap) (t : String) (b : Bytes)
    (m : EventHandlerMap) (e : EventVal) (w : World)
    (h1 : typeMapLookup etm t = none) (h2 : eventMapLookup m e.pyType = none) :
    EventListener.deserialize_event etm t b = (Except.error PyError.assertionError, etm) ∧
    RuntimeEventDispatcher.dispatch m e w = w := by
  constructor
  · simp only [EventListener.deserialize_event, h1]
  · simp only [RuntimeEventDispatcher.dispatch, h2]

/-- Witness for claim C2 (amended): a concrete unregistered identifier fails
the assert and leaves the source's EVENT_TYPES_MAP unchanged, while dispatch
under an empty map is the identity. -/
theorem unknown_type_identifier_behavior_witness :
    EventListener.deserialize_event EVENT_TYPES_MAP "spec/unregistered" (Json.obj [])
        = (Except.error PyError.assertionError, EVENT_TYPES_MAP) ∧
    RuntimeEventDispatcher.dispatch [] helloWorldEvent initialWorld = initialWorld :=
  unknown_type_identifier_behavior EVENT_TYPES_MAP "spec/unregistered" (Json.obj [])
    [] helloWorldEvent initialWorld rfl rfl

/-- Claim C2 counterexample: at the unregistered identifier
"demo/new-message" the listener's deserialize_event raises AssertionError,
which is not UnknownTypeError as the claim states, and the dispatcher given
an event of a type with no registry entry returns normally instead of
raising. -/
theorem unknown_type_raises_assertion_not_unknown_type_error :
    (EventListener.deserialize_event EVENT_TYPES_MAP "demo/new-message" (Json.obj [])).1
        = Except.error PyError.assertionError ∧
    (Except.error PyError.assertionError : Except PyError EventVal)
        ≠ Except.error PyError.unknownTypeError ∧
    RuntimeEventDispatcher.dispatch [] helloWorldEvent initialWorld = initialWorld := by
  refine ⟨rfl, ?_, rfl⟩
  intro hcontra
  exact absurd (Except.error.inj hcontra) (by decide)

/-- Claim C3: for the registered event type NewMessageEvent and every valid
instance — any message string — deserializing the serialization yields an
event with equal fields. -/
theorem serialize_deserialize_roundtrip (s : String) :
    NewMessageEvent.deserialize (NewMessageEvent.serialize ⟨Json.str s⟩)
      = Except.ok (EventVal.newMessage ⟨Json.str s⟩) := rfl

/-- Witness for claim C3: the round trip at the bootstrap event's message. -/
theorem serialize_deserialize_roundtrip_witness :
    NewMessageEvent.deserialize (NewMessageEvent.serialize ⟨Json.str "Hello World!"⟩)
      = Except.ok (EventVal.newMessage ⟨Json.str "Hello World!"⟩) :=
  serialize_deserialize_roundtrip "Hello World!"

/-- Claim C4 (amended): publish emits exactly one message whose headers carry
the event's type identifier under "type" and the isoformat of its revision
under "revision", and whose body is the serialized event; for the bootstrap
demo event those headers are type "some-proj/some-domain/some-event" — not
"demo/new-message" — and revision "2022-10-26T02:49:00". -/
theorem publish_emits_one_typed_message (e : EventVal) (st : BrokerState) :
    (RabbitMQEvenDispatcher.dispatch e st).published
      = st.published
          ++ [{ exchange := "", routingKey := "test",
                headers := [("type", e.getType), ("revision", e.getRevision.isoformat)],
                body := e.serialize }] ∧
    (RabbitMQEvenDispatcher.dispatch helloWorldEvent ⟨[]⟩).published.map AmqpMessage.headers
      = [[("type", "some-proj/some-domain/some-event"),
          ("revision", "2022-10-26T02:49:00")]] :=
  ⟨rfl, rfl⟩

/-- Witness for claim C4 (amended): the single message published for the
bootstrap event on an idle connection. -/
theorem publish_emits_one_typed_message_witness :
    (RabbitMQEvenDispatcher.dispatch helloWorldEvent ⟨[]⟩).published
      = [{ exchange := "", routingKey := "test",
           headers := [("type", helloWorldEvent.getType),
                       ("revision", helloWorldEvent.getRevision.isoformat)],
           body := helloWorldEvent.serialize }] :=
  (publish_emits_one_typed_message helloWorldEvent ⟨[]⟩).1

/-- Claim C4 counterexample: the demo event's published type header is the
source literal "some-proj/some-domain/some-event", not the claimed
"demo/new-message". -/
theorem publish_demo_type_header_not_demo_new_message :
    (RabbitMQEvenDispatcher.dispatch helloWorldEvent ⟨[]⟩).published.map AmqpMessage.headers
      = [[("type", "some-proj/some-domain/some-event"),
          ("revision", "2022-10-26T02:49:00")]] ∧
    ("some-proj/some-domain/some-event" : String) ≠ "demo/new-message" :=
  ⟨rfl, by decide⟩

/-- Claim C5 (amended): in the kink variant the NotificationService binding
is a lazily constructed cached singleton — the first resolution constructs
the service and caches it, and a second resolution returns the identical
instance with no further construction or any state change — while in the
dependency_injector variant the binding is a Factory provider, which
constructs a fresh instance on every resolution, so repeated resolutions
there never return the identical instance. -/
theorem notification_service_binding_resolution (w : World) (h : w.svcCache = none) :
    ((resolveNotificationService w).2).svcLog
        = w.svcLog ++ [(resolveNotificationService w).1] ∧
    ((resolveNotificationService w).2).svcCache = some (resolveNotificationService w).1 ∧
    (resolveNotificationService ((resolveNotificationService w).2)).1
        = (resolveNotificationService w).1 ∧
    (resolveNotificationService ((resolveNotificationService w).2)).2
        = (resolveNotificationService w).2 ∧
    ∀ dw : DIWorld,
      ((factoryProvideNotificationService dw).2).svcLog
          = dw.svcLog ++ [(factoryProvideNotificationService dw).1] ∧
      (factoryProvideNotificationService ((factoryProvideNotificationService dw).2)).1
          ≠ (factoryProvideNotificationService dw).1 := by
  refine ⟨?_, ?_, ?_, ?_, ?_⟩
  · simp [resolveNotificationService, constructPrintNotificationService, h]
  · simp [resolveNotificationService, constructPrintNotificationService, h]
  · simp [resolveNotificationService, constructPrintNotificationService, h]
  · simp [resolveNotificationService, constructPrintNotificationService, h]
  · intro dw
    constructor
    · simp [factoryProvideNotificationService]
    · simp [factoryProvideNotificationService]

/-- Witness for claim C5 (amended): resolution from the freshly bootstrapped
state constructs the service once, caches instance 0 and returns it again on
the second resolution. -/
theorem notification_service_binding_resolution_witness :
    ((resolveNotificationService initialWorld).2).svcLog
        = initialWorld.svcLog ++ [(resolveNotificationService initialWorld).1] ∧
    ((resolveNotificationService initialWorld).2).svcCache
        = some (resolveNotificationService initialWorld).1 ∧
    (resolveNotificationService ((resolveNotificationService initialWorld).2)).1
        = (resolveNotificationService initialWorld).1 ∧
    (resolveNotificationService ((resolveNotificationService initialWorld).2)).2
        = (resolveNotificationService initialWorld).2 ∧
    ∀ dw : DIWorld,
      ((factoryProvideNotificationService dw).2).svcLog
          = dw.svcLog ++ [(factoryProvideNotificationService dw).1] ∧
      (factoryProvideNotificationService ((factoryProvideNotificationService dw).2)).1
          ≠ (factoryProvideNotificationService dw).1 :=
  notification_service_binding_resolution initialWorld rfl

/-- Claim C5 counterexample: with the dependency_injector Factory binding,
two resolutions starting from a fresh container construct two distinct
PrintNotificationService instances (ids 0 and 1), so resolve does not return
the identical instance on repeated calls. -/
theorem factory_binding_constructs_fresh_instances :
    (factoryProvideNotificationService
        ((factoryProvideNotificationService (DIWorld.mk 0 [])).2)).1
      ≠ (factoryProvideNotificationService (DIWorld.mk 0 [])).1 ∧
    ((factoryProvideNotificationService
        ((factoryProvideNotificationService (DIWorld.mk 0 [])).2)).2).svcLog = [0, 1] := by
  decide

/-- Claim C9: the listener's type registry EVENT_TYPES_MAP is consistent with
the handler registry EVENT_HANDLERS: every key class of EVENT_HANDLERS is
recovered from its get_type identifier by EVENT_TYPES_MAP, and every entry of
EVENT_TYPES_MAP maps an identifier to a class whose get_type returns exactly
that identifier. -/
theorem event_types_map_consistent :
    (∀ c ∈ EVENT_HANDLERS.map Prod.fst,
        typeMapLookup EVENT_TYPES_MAP c.getType = some c) ∧
    (∀ p ∈ EVENT_TYPES_MAP, p.2.getType = p.1) := by
  decide

/-- Witness for claim C9: the single registered class NewMessageEvent is
recovered from its wire identifier. -/
theorem event_types_map_consistent_witness :
    typeMapLookup EVENT_TYPES_MAP (EventClass.getType EventClass.newMessageEvent)
      = some EventClass.newMessageEvent :=
  event_types_map_consistent.1 EventClass.newMessageEvent (by decide)
